import Mathlib

/-!
Verification of the two automation scripts in this repository:

* `.config/scripts/generate_docs_readme.py` — renders `docs/README.md`
  from a `docs.yaml` configuration mapping.
* `.config/scripts/generate_lint_report.py` — posts an LLM-generated lint
  summary as a pull-request comment.

The configuration document is embedded by its data model (a mapping with
optional `header`, `styling`, `sections`, `quick_links` keys, each field
optional); `Option` encodes presence of a key, and the Python dict truthiness
(`if not config`, `if image_config`) is mirrored by explicit `truthy`
predicates.  The rendering functions are direct transliterations of the
Python functions of the same names.
-/

namespace Deco

/-- The `image` mapping under `header`: keys `src`, `alt`, `width`, `height`,
`caption`, all optional. -/
structure Image where
  src : Option String
  alt : Option String
  width : Option Int
  height : Option Int
  caption : Option String
deriving DecidableEq

/-- The empty `image` mapping, the default taken when the header has no image key. -/
def Image.empty : Image := ⟨none, none, none, none, none⟩

/-- Python truthiness of the `image` mapping: a dict is truthy iff non-empty,
i.e. iff at least one key is present. -/
def Image.truthy (i : Image) : Bool :=
  i.src.isSome || i.alt.isSome || i.width.isSome || i.height.isSome || i.caption.isSome

/-- The `header` mapping: keys `title`, `image`, `subtitle`, all optional. -/
structure Header where
  title : Option String
  image : Option Image
  subtitle : Option String
deriving DecidableEq

/-- The empty `header` mapping, the default taken when the config has no header key. -/
def Header.empty : Header := ⟨none, none, none⟩

/-- The `styling` mapping: optional boolean key `show_image`. -/
structure Styling where
  show_image : Option Bool
deriving DecidableEq

/-- The empty `styling` mapping, the default taken when the config has no styling key. -/
def Styling.empty : Styling := ⟨none⟩

/-- One entry of the `sections` sequence: optional `title`, `file`,
`description`, all text. -/
structure DocSection where
  title : Option String
  file : Option String
  description : Option String
deriving DecidableEq

/-- One entry of the `quick_links` sequence: optional `title` and `url`. -/
structure QuickLink where
  title : Option String
  url : Option String
deriving DecidableEq

/-- The top-level configuration mapping parsed from `docs.yaml`. -/
structure Config where
  header : Option Header
  styling : Option Styling
  sections : Option (List DocSection)
  quick_links : Option (List QuickLink)
deriving DecidableEq

/-- The empty configuration mapping `{}`. -/
def Config.empty : Config := ⟨none, none, none, none⟩

/-- Python truthiness of the configuration mapping (`if not config` in `main`):
a dict is truthy iff it has at least one key. -/
def Config.truthy (c : Config) : Bool :=
  c.header.isSome || c.styling.isSome || c.sections.isSome || c.quick_links.isSome

/-! Embedding of generate_header (generate_docs_readme.py lines 23–57) -/

/-- The img tag line built inside `generate_header`, with the fallback
defaults for `src`, `alt`, `width`, `height`. -/
def img_tag (image_config : Image) : String :=
  "  <img src=\"" ++ image_config.src.getD "./images/deco_gopher.png" ++
  "\" alt=\"" ++ image_config.alt.getD "Go Gopher Artist" ++
  "\" width=\"" ++ toString (image_config.width.getD 200) ++
  "\" height=\"" ++ toString (image_config.height.getD 200) ++ "\">"

/-- The image block of `generate_header`: emitted only when the show_image
flag (defaulting to true) is truthy and the image mapping is a truthy
(non-empty) mapping. -/
def image_block (header : Header) (styling : Styling) : List String :=
  if styling.show_image.getD true then
    let image_config := header.image.getD Image.empty
    if image_config.truthy then
      ["<div align=\"center\">", img_tag image_config, "  <br>"] ++
      (let caption := image_config.caption.getD ""
       if caption ≠ "" then ["  <em>" ++ caption ++ "</em>"] else []) ++
      ["</div>", ""]
    else []
  else []

/-- Transliteration of generate_header: title heading, optional image block,
optional subtitle paragraph. -/
def generate_header (config : Config) : List String :=
  let header := config.header.getD Header.empty
  let styling := config.styling.getD Styling.empty
  let title := header.title.getD "Documentation"
  let subtitle := header.subtitle.getD ""
  ["# " ++ title, ""] ++ image_block header styling ++
  (if subtitle ≠ "" then [subtitle, ""] else [])

/-! Embedding of generate_sections (lines 59–83) -/

/-- The guard of the sections loop: both the title and the file of the
entry, defaulted to the empty string, must be non-empty. -/
def section_keep (s : DocSection) : Bool :=
  decide (s.title.getD "" ≠ "") && decide (s.file.getD "" ≠ "")

/-- The bullet built for a kept section entry:
`- [title](./file)` plus ` - description` when the description is non-empty. -/
def section_bullet (s : DocSection) : String :=
  let link := "- [" ++ s.title.getD "" ++ "](./" ++ s.file.getD "" ++ ")"
  if s.description.getD "" ≠ "" then link ++ " - " ++ s.description.getD "" else link

/-- One iteration of the sections loop: a bullet for a kept entry, nothing
for a skipped one. -/
def section_line (s : DocSection) : Option String :=
  if section_keep s then some (section_bullet s) else none

/-- Transliteration of generate_sections. -/
def generate_sections (config : Config) : List String :=
  let sections := config.sections.getD []
  if sections ≠ [] then
    ["## 📚 Documentation Sections", ""] ++ sections.filterMap section_line ++ [""]
  else []

/-! Embedding of generate_quick_links (lines 85–105) -/

/-- The guard of the quick-links loop: non-empty title and url. -/
def link_keep (l : QuickLink) : Bool :=
  decide (l.title.getD "" ≠ "") && decide (l.url.getD "" ≠ "")

/-- The bullet built for a kept quick link: `- [title](url)`. -/
def link_bullet (l : QuickLink) : String :=
  "- [" ++ l.title.getD "" ++ "](" ++ l.url.getD "" ++ ")"

/-- One iteration of the quick-links loop. -/
def link_line (l : QuickLink) : Option String :=
  if link_keep l then some (link_bullet l) else none

/-- Transliteration of generate_quick_links. -/
def generate_quick_links (config : Config) : List String :=
  let quick_links := config.quick_links.getD []
  if quick_links ≠ [] then
    ["## 🚀 Quick Links", ""] ++ quick_links.filterMap link_line ++ [""]
  else []

/-! Embedding of generate_readme and main (lines 107–146) -/

/-- The newline join of the rendered lines, as the Python join performs it. -/
def joinLines : List String → String
  | [] => ""
  | [l] => l
  | l :: ls => l ++ "\n" ++ joinLines ls

/-- The line list assembled by `generate_readme`: header, then sections, then
quick links, in this fixed order. -/
def generate_readme_lines (config : Config) : List String :=
  generate_header config ++ generate_sections config ++ generate_quick_links config

/-- The text written to `docs/README.md` by `generate_readme`. -/
def readme_text (config : Config) : String :=
  joinLines (generate_readme_lines config)

/-- Outcome of `load_config`: the file may be missing (`FileNotFoundError`),
malformed (`yaml.YAMLError`), or parse to a configuration mapping. -/
inductive LoadResult where
  | notFound
  | parseError
  | ok (c : Config)
deriving DecidableEq

/-- Model of load_config: it returns `none` on both exception branches, else
the parsed configuration. -/
def load_config : LoadResult → Option Config
  | .notFound => none
  | .parseError => none
  | .ok c => some c

/-- Model of main as a function of the load outcome and of whether the
file-system write in `generate_readme` succeeds.  Returns the process exit
status and the content written to `docs/README.md` (`none` when nothing is
written).  `sys.exit(1)` fires when `load_config` returned `None`, when the
parsed configuration is falsy (`if not config`), or when the write fails. -/
def main_run (r : LoadResult) (writeOk : Bool) : Nat × Option String :=
  match load_config r with
  | none => (1, none)
  | some config =>
    if config.truthy = false then (1, none)
    else if writeOk then (0, some (readme_text config)) else (1, none)

/-! Embedding of generate_lint_report.py -/

/-- Model of the Python strip method: remove leading and trailing whitespace. -/
def pyStrip (s : String) : String :=
  ⟨((s.data.dropWhile Char.isWhitespace).reverse.dropWhile Char.isWhitespace).reverse⟩

/-- The part of the prompt f-string before the embedded `lint_output`
(the template opens with a newline and ends with an opening code fence). -/
def prompt_head : String :=
  "\nVocê é um engenheiro de software sênior revisando um pull request. O CI executou golangci-lint e identificou os seguintes problemas de qualidade de código Go. \n\nPara cada problema, gere um comentário técnico claro e objetivo, explicando:\n\n* **🔍 Descrição:** O que está errado e por que é importante corrigir\n* **📍 Localização:** Arquivo e linha onde o problema ocorre\n* **🛠️ Solução:** Como corrigir, incluindo exemplos de código quando relevante\n* **⚡ Prioridade:** Alta/Média/Baixa baseada no impacto\n\n**Problemas encontrados pelo golangci-lint:**\n```\n"

/-- The part of the prompt f-string after the embedded `lint_output`. -/
def prompt_tail : String :=
  "\n```\n\nFormate sua resposta como uma lista numerada em markdown, agrupando problemas similares quando possível. Seja conciso mas informativo.\n"

/-- The prompt f-string: the template with `lint_output` embedded verbatim. -/
def prompt_of (lint_output : String) : String :=
  prompt_head ++ lint_output ++ prompt_tail

/-- The fixed heading that opens `comment_body`. -/
def comment_head : String :=
  "### 🔍 Problemas de Lint encontrados pelo CI\n\n"

/-- First static suggestion bullet of `comment_body`. -/
def suggestion_one : String :=
  "- Corrija os problemas apontados para garantir a qualidade e padronização do código."

/-- Second static suggestion bullet of `comment_body`. -/
def suggestion_two : String :=
  "- Execute `make lint` localmente para validar antes de subir novas alterações."

/-- Third static suggestion bullet of `comment_body`. -/
def suggestion_three : String :=
  "- Use `make lint-fix` para corrigir automaticamente alguns problemas de formatação."

/-- The part of the `comment_body` f-string after the embedded
`detailed_report`: the suggestions header and the three static bullets. -/
def comment_tail : String :=
  "\n\n**💡 Sugestões:**\n\n" ++ suggestion_one ++ "\n" ++ suggestion_two ++ "\n" ++ suggestion_three

/-- The comment body: fixed heading, the trimmed model output, fixed suggestions. -/
def comment_body_of (detailed_report : String) : String :=
  comment_head ++ detailed_report ++ comment_tail

/-- An external call made by the lint-report script. -/
inductive BotAction where
  | completionRequest (model : String) (systemPrompt : String)
  | getRepo (name : String)
  | getPull (number : Int)
  | createComment (body : String)
deriving DecidableEq

def BotAction.isCompletion : BotAction → Bool
  | .completionRequest _ _ => true
  | _ => false

def BotAction.isCreateComment : BotAction → Bool
  | .createComment _ => true
  | _ => false

/-- The run of `generate_lint_report.py`, modelled as a function of the
`lint_output.txt` content, the response text of the completion service, and the
`REPO_NAME` / `PR_NUMBER` environment values.  Returns the exit status and
the ordered list of external calls the script issues.  When the stripped file
content is empty the script prints a notice and calls `exit(0)` before any
network client is used; otherwise it sends one chat completion (one system
message holding the prompt), resolves the repository and pull request, and
creates one issue comment. -/
def lint_bot_run (fileContent modelResponse repoName : String) (prNumber : Int) :
    Nat × List BotAction :=
  let lint_output := pyStrip fileContent
  if lint_output = "" then (0, [])
  else
    let prompt := prompt_of lint_output
    let detailed_report := pyStrip modelResponse
    (0, [BotAction.completionRequest "gpt-4o-mini" prompt,
         BotAction.getRepo repoName,
         BotAction.getPull prNumber,
         BotAction.createComment (comment_body_of detailed_report)])

/-! Helper lemmas -/

/-- A guarded `filterMap` is a `filter` followed by a `map`: the loop keeps the
surviving entries in their source order. -/
theorem filterMap_guard {α β : Type} (p : α → Bool) (f : α → β) :
    ∀ l : List α, l.filterMap (fun a => if p a then some (f a) else none)
      = (l.filter p).map f := by
  intro l
  induction l with
  | nil => simp
  | cons a l ih =>
    by_cases h : p a = true <;> simp [List.filterMap_cons, List.filter_cons, h, ih]

theorem section_line_eq_guard :
    section_line = fun s => if section_keep s then some (section_bullet s) else none := rfl

theorem link_line_eq_guard :
    link_line = fun l => if link_keep l then some (link_bullet l) else none := rfl

/-- A string whose length is positive on the left of an append is non-empty. -/
theorem append_left_ne_empty (a b : String) (h : a.length ≠ 0) : (a ++ b) ≠ "" := by
  intro hc
  have hl := congrArg String.length hc
  rw [String.length_append] at hl
  simp at hl
  omega

theorem joinLines_cons_cons (a b : String) (l : List String) :
    joinLines (a :: b :: l) = a ++ "\n" ++ joinLines (b :: l) := rfl

/-- A configuration holding only an (empty) `styling` mapping: every key the
renderers read is missing, yet the mapping itself is truthy. -/
def cfg_defaults_only : Config := ⟨none, some Styling.empty, none, none⟩

/-- A configuration with an `image` entry that is present but empty, and no
`styling` key (so `show_image` defaults to true). -/
def cfg_empty_image : Config := ⟨some ⟨none, some Image.empty, none⟩, none, none, none⟩

/-! Claim theorems -/

/-- Claim C1, counterexample: on the empty configuration mapping, `main` hits
the `if not config` guard (an empty dict is falsy in Python) and exits with
status 1, writing nothing — not with status 0 as the claim states. -/
theorem c1_counterexample_empty_config :
    main_run (LoadResult.ok Config.empty) true = (1, none) := by decide

/-- Claim C1 (amended): for every non-empty (truthy) configuration mapping,
the generator succeeds — it never fails with a missing-key fault, writes the
rendered text built from defaulted/fallback values, and exits with status 0.
The empty mapping is instead rejected by the `if not config` guard. -/
theorem c1_nonempty_config_succeeds (cfg : Config) (h : cfg.truthy = true) :
    main_run (LoadResult.ok cfg) true = (0, some (readme_text cfg)) := by
  simp [main_run, load_config, h]

/-- Claim C1 witness: a configuration whose every rendered field is missing
still succeeds with exit status 0. -/
theorem c1_witness :
    Config.truthy cfg_defaults_only = true
    ∧ main_run (LoadResult.ok cfg_defaults_only) true
        = (0, some (readme_text cfg_defaults_only)) :=
  ⟨rfl, c1_nonempty_config_succeeds cfg_defaults_only rfl⟩

/-- Claim C2: when the stripped `lint_output.txt` content is empty, the bot
makes zero external calls and exits with status 0. -/
theorem c2_empty_findings_no_calls (content response repo : String) (pr : Int)
    (h : pyStrip content = "") :
    lint_bot_run content response repo pr = (0, []) := by
  simp [lint_bot_run, h]

/-- Claim C2 witness: a whitespace-only findings file takes the early-exit
path: no calls, exit status 0. -/
theorem c2_witness :
    pyStrip "  \n\t " = "" ∧ lint_bot_run "  \n\t " "x" "r" 1 = (0, []) :=
  ⟨by decide, c2_empty_findings_no_calls "  \n\t " "x" "r" 1 (by decide)⟩

/-- Claim C3: for every findings file that is non-empty after stripping, the
bot issues exactly one completion request, whose prompt embeds the stripped
findings text verbatim between the fixed template parts, and exactly one
comment-creation call, whose body is the fixed heading, the stripped model
response, and the three static suggestion bullets. -/
theorem c3_one_completion_one_comment (content response repo : String) (pr : Int)
    (h : pyStrip content ≠ "") :
    (lint_bot_run content response repo pr).2
        = [BotAction.completionRequest "gpt-4o-mini"
             (prompt_head ++ pyStrip content ++ prompt_tail),
           BotAction.getRepo repo, BotAction.getPull pr,
           BotAction.createComment (comment_head ++ pyStrip response ++ comment_tail)]
    ∧ ((lint_bot_run content response repo pr).2.filter BotAction.isCompletion).length = 1
    ∧ ((lint_bot_run content response repo pr).2.filter BotAction.isCreateComment).length = 1
    ∧ (lint_bot_run content response repo pr).1 = 0 := by
  simp [lint_bot_run, h, prompt_of, comment_body_of,
    BotAction.isCompletion, BotAction.isCreateComment]

/-- Claim C3 witness: a one-word findings file yields the completion request
and the comment creation with the expected texts. -/
theorem c3_witness :
    pyStrip "err" ≠ ""
    ∧ ((lint_bot_run "err" " resumo " "r" 7).2
        = [BotAction.completionRequest "gpt-4o-mini"
             (prompt_head ++ pyStrip "err" ++ prompt_tail),
           BotAction.getRepo "r", BotAction.getPull 7,
           BotAction.createComment (comment_head ++ pyStrip " resumo " ++ comment_tail)]
      ∧ ((lint_bot_run "err" " resumo " "r" 7).2.filter BotAction.isCompletion).length = 1
      ∧ ((lint_bot_run "err" " resumo " "r" 7).2.filter BotAction.isCreateComment).length = 1
      ∧ (lint_bot_run "err" " resumo " "r" 7).1 = 0) :=
  ⟨by decide, c3_one_completion_one_comment "err" " resumo " "r" 7 (by decide)⟩

/-- Claim C4, counterexample: with `show_image` unset (defaulting to true)
and an `image` entry present but empty, the claim says an image block is
emitted, but the rendered header contains none — `if image_config:` is false
on an empty mapping. -/
theorem c4_counterexample_empty_image_entry :
    (cfg_empty_image.header.getD Header.empty).image.isSome = true
    ∧ (cfg_empty_image.styling.getD Styling.empty).show_image.getD true = true
    ∧ generate_header cfg_empty_image = ["# Documentation", ""] := by
  refine ⟨rfl, rfl, ?_⟩
  decide

/-- Claim C4 (amended): the header contains an image block exactly when
`styling.show_image` is true (defaulting to true when absent) and a
*non-empty* `image` entry exists; the block uses the fallback defaults for
missing `src`/`alt`/`width`/`height` and an italic caption line only when a
non-empty caption is given; with `show_image: false` no block appears. -/
theorem c4_image_block_rendering (cfg : Config) :
    (generate_header cfg
        = ["# " ++ (cfg.header.getD Header.empty).title.getD "Documentation", ""]
          ++ image_block (cfg.header.getD Header.empty) (cfg.styling.getD Styling.empty)
          ++ (if (cfg.header.getD Header.empty).subtitle.getD "" ≠ ""
              then [(cfg.header.getD Header.empty).subtitle.getD "", ""] else []))
    ∧ ((cfg.styling.getD Styling.empty).show_image.getD true = false →
        image_block (cfg.header.getD Header.empty) (cfg.styling.getD Styling.empty) = [])
    ∧ (image_block (cfg.header.getD Header.empty) (cfg.styling.getD Styling.empty) ≠ []
        ↔ ((cfg.styling.getD Styling.empty).show_image.getD true = true
            ∧ ((cfg.header.getD Header.empty).image.getD Image.empty).truthy = true))
    ∧ ((cfg.styling.getD Styling.empty).show_image.getD true = true →
        ((cfg.header.getD Header.empty).image.getD Image.empty).truthy = true →
        image_block (cfg.header.getD Header.empty) (cfg.styling.getD Styling.empty)
          = ["<div align=\"center\">",
             img_tag ((cfg.header.getD Header.empty).image.getD Image.empty),
             "  <br>"]
            ++ (if ((cfg.header.getD Header.empty).image.getD Image.empty).caption.getD "" ≠ ""
                then ["  <em>"
                    ++ ((cfg.header.getD Header.empty).image.getD Image.empty).caption.getD ""
                    ++ "</em>"]
                else [])
            ++ ["</div>", ""])
    ∧ img_tag Image.empty
        = "  <img src=\"./images/deco_gopher.png\" alt=\"Go Gopher Artist\" width=\"200\" height=\"200\">" := by
  refine ⟨by simp [generate_header], ?_, ?_, ?_, rfl⟩
  · intro h
    simp [image_block, h]
  · cases hb : (cfg.styling.getD Styling.empty).show_image.getD true with
    | false => simp [image_block, hb]
    | true =>
      cases ht : ((cfg.header.getD Header.empty).image.getD Image.empty).truthy with
      | false => simp [image_block, hb, ht]
      | true => simp [image_block, hb, ht]
  · intro hb ht
    simp [image_block, hb, ht]

/-- Claim C4 witness: with `show_image: false` and a non-empty image entry,
the image block is empty. -/
theorem c4_witness :
    image_block
        ((⟨some ⟨none, some ⟨some "a.png", none, none, none, none⟩, none⟩,
           some ⟨some false⟩, none, none⟩ : Config).header.getD Header.empty)
        ((⟨some ⟨none, some ⟨some "a.png", none, none, none, none⟩, none⟩,
           some ⟨some false⟩, none, none⟩ : Config).styling.getD Styling.empty) = [] :=
  (c4_image_block_rendering
      ⟨some ⟨none, some ⟨some "a.png", none, none, none, none⟩, none⟩,
       some ⟨some false⟩, none, none⟩).2.1 rfl

/-- Claim C5: the sections renderer emits nothing for an absent or empty
`sections` list; otherwise it emits the heading and exactly one bullet
`- [title](./file)` (with ` - description` appended only when the description
is non-empty) per entry whose title and file are both non-empty, skipping the
others and preserving the source order of the survivors. -/
theorem c5_sections_rendering (cfg : Config) :
    (cfg.sections.getD [] = [] → generate_sections cfg = [])
    ∧ (cfg.sections.getD [] ≠ [] →
        generate_sections cfg
          = ["## 📚 Documentation Sections", ""]
            ++ ((cfg.sections.getD []).filter section_keep).map section_bullet ++ [""])
    ∧ (∀ s : DocSection, section_keep s = false ↔ (s.title.getD "" = "" ∨ s.file.getD "" = ""))
    ∧ (∀ s : DocSection, s.description.getD "" = "" →
        section_bullet s = "- [" ++ s.title.getD "" ++ "](./" ++ s.file.getD "" ++ ")")
    ∧ (∀ s : DocSection, s.description.getD "" ≠ "" →
        section_bullet s
          = ("- [" ++ s.title.getD "" ++ "](./" ++ s.file.getD "" ++ ")")
            ++ " - " ++ s.description.getD "") := by
  refine ⟨?_, ?_, ?_, ?_, ?_⟩
  · intro h
    simp [generate_sections, h]
  · intro h
    rw [generate_sections]
    simp only [h, if_pos, ne_eq, not_false_iff]
    rw [section_line_eq_guard, filterMap_guard]
  · intro s
    simp [section_keep, Decidable.not_not]
    tauto
  · intro s h
    simp [section_bullet, h]
  · intro s h
    simp [section_bullet, h]

/-- Claim C5 witness: a middle entry lacking `file` is skipped and the other
two entries keep their order; the description suffix is omitted when empty. -/
theorem c5_witness :
    (some [(⟨some "A", some "a.md", some "first"⟩ : DocSection),
           ⟨some "B", none, none⟩,
           ⟨some "C", some "c.md", none⟩] : Option (List DocSection)).getD [] ≠ []
    ∧ generate_sections ⟨none, none,
        some [⟨some "A", some "a.md", some "first"⟩,
              ⟨some "B", none, none⟩,
              ⟨some "C", some "c.md", none⟩], none⟩
      = ["## 📚 Documentation Sections", ""]
        ++ (([(⟨some "A", some "a.md", some "first"⟩ : DocSection),
              ⟨some "B", none, none⟩,
              ⟨some "C", some "c.md", none⟩].filter section_keep).map section_bullet)
        ++ [""] :=
  ⟨by decide,
   (c5_sections_rendering ⟨none, none,
      some [⟨some "A", some "a.md", some "first"⟩,
            ⟨some "B", none, none⟩,
            ⟨some "C", some "c.md", none⟩], none⟩).2.1 (by decide)⟩

/-- Claim C6: when both `sections` and `quick_links` are absent or empty, the
two renderers emit nothing at all — in particular neither level-2 heading —
and the whole output is just the header block. -/
theorem c6_no_headings_when_empty (cfg : Config)
    (hs : cfg.sections.getD [] = []) (hq : cfg.quick_links.getD [] = []) :
    generate_sections cfg = [] ∧ generate_quick_links cfg = []
      ∧ generate_readme_lines cfg = generate_header cfg := by
  have h1 : generate_sections cfg = [] := by simp [generate_sections, hs]
  have h2 : generate_quick_links cfg = [] := by simp [generate_quick_links, hq]
  exact ⟨h1, h2, by simp [generate_readme_lines, h1, h2]⟩

/-- Claim C6 witness: with `sections: []` and `quick_links: []` the output is
exactly the header block. -/
theorem c6_witness :
    generate_sections (⟨none, none, some [], some []⟩ : Config) = []
    ∧ generate_quick_links (⟨none, none, some [], some []⟩ : Config) = []
    ∧ generate_readme_lines (⟨none, none, some [], some []⟩ : Config)
        = generate_header (⟨none, none, some [], some []⟩ : Config) :=
  c6_no_headings_when_empty ⟨none, none, some [], some []⟩ rfl rfl

/-- Claim C7: whenever `main` writes the README, the written text is exactly
the header lines, then the section lines, then the quick-link lines, in this
fixed order, joined by single newline separators. -/
theorem c7_written_readme_is_concatenation (cfg : Config) (h : cfg.truthy = true) :
    (main_run (LoadResult.ok cfg) true).2
      = some (joinLines
          (generate_header cfg ++ generate_sections cfg ++ generate_quick_links cfg)) := by
  simp [main_run, load_config, h, readme_text, generate_readme_lines]

/-- Claim C7 witness: the concatenation equality at a concrete truthy
configuration. -/
theorem c7_witness :
    (main_run (LoadResult.ok cfg_defaults_only) true).2
      = some (joinLines
          (generate_header cfg_defaults_only ++ generate_sections cfg_defaults_only
            ++ generate_quick_links cfg_defaults_only)) :=
  c7_written_readme_is_concatenation cfg_defaults_only rfl

/-- Claim C8: when loading fails — file missing or unparsable — `main` exits
with status 1 and nothing is written, regardless of the writer. -/
theorem c8_load_failure_aborts (w : Bool) :
    main_run LoadResult.notFound w = (1, none)
    ∧ main_run LoadResult.parseError w = (1, none) :=
  ⟨rfl, rfl⟩

/-- Claim C9: rendering is deterministic — the output depends only on the
configuration value, so two runs on the same configuration produce
byte-identical output. -/
theorem c9_rendering_deterministic (cfg₁ cfg₂ : Config) (h : cfg₁ = cfg₂) :
    readme_text cfg₁ = readme_text cfg₂
    ∧ main_run (LoadResult.ok cfg₁) true = main_run (LoadResult.ok cfg₂) true := by
  subst h
  exact ⟨rfl, rfl⟩

/-- Claim C9 witness: two runs on the same concrete configuration agree. -/
theorem c9_witness :
    readme_text Config.empty = readme_text Config.empty
    ∧ main_run (LoadResult.ok Config.empty) true
        = main_run (LoadResult.ok Config.empty) true :=
  c9_rendering_deterministic Config.empty Config.empty rfl

/-- Claim C10: for every configuration, the first rendered line is the
level-1 heading `# ` followed by the (possibly defaulted) title, and the
rendered text is never empty. -/
theorem c10_first_line_title_heading (cfg : Config) :
    (generate_readme_lines cfg).head?
        = some ("# " ++ (cfg.header.getD Header.empty).title.getD "Documentation")
    ∧ readme_text cfg ≠ "" := by
  have hshape : generate_readme_lines cfg
      = ("# " ++ (cfg.header.getD Header.empty).title.getD "Documentation")
        :: "" :: (image_block (cfg.header.getD Header.empty) (cfg.styling.getD Styling.empty)
            ++ (if (cfg.header.getD Header.empty).subtitle.getD "" ≠ ""
                then [(cfg.header.getD Header.empty).subtitle.getD "", ""] else [])
            ++ generate_sections cfg ++ generate_quick_links cfg) := by
    simp [generate_readme_lines, generate_header]
  constructor
  · rw [hshape]
    rfl
  · rw [readme_text, hshape, joinLines_cons_cons]
    apply append_left_ne_empty
    rw [String.length_append, String.length_append]
    have h2 : "# ".length = 2 := rfl
    omega

end Deco
